import Mathlib

/-!
# Verification of the VR video app core against its specification

Shallow embedding of the orientation tracker (`src/sensors.rs`), the NDK
decoder pipeline (`src/video_ndk.rs`), the distortion scale of the renderer
derivation (`src/renderer.rs`) and the seek intents of the orchestrator
(`src/lib.rs`).  Floating point quaternion and scale arithmetic is embedded
over exact rationals; machine `i64` arithmetic over `ℤ` with truncating
division where the source divides.
-/

namespace VRApp

/-! ## Quaternions (glam `Quat` with exact rational components)

`glam::Quat` stores `(x, y, z, w)`.  The operations used by `sensors.rs` are
multiplication (Hamilton product), `inverse` (which in glam is the conjugate,
valid for the unit quaternions the tracker holds) and `normalize` (identity
on unit quaternions, so the embedding tracks squared norms instead). -/

structure Qu where
  x : ℚ
  y : ℚ
  z : ℚ
  w : ℚ
deriving DecidableEq

/-- The constant `Quat::IDENTITY = (0, 0, 0, 1)`. -/
def Qu.identity : Qu := ⟨0, 0, 0, 1⟩

/-- Hamilton product, the componentwise formula of the glam `Mul<Quat>` instance. -/
def Qu.mul (a b : Qu) : Qu :=
  ⟨ a.w * b.x + a.x * b.w + a.y * b.z - a.z * b.y,
    a.w * b.y - a.x * b.z + a.y * b.w + a.z * b.x,
    a.w * b.z + a.x * b.y - a.y * b.x + a.z * b.w,
    a.w * b.w - a.x * b.x - a.y * b.y - a.z * b.z ⟩

/-- Quaternion conjugate. -/
def Qu.conj (a : Qu) : Qu := ⟨-a.x, -a.y, -a.z, a.w⟩

/-- In glam, `Quat::inverse` assumes a normalized quaternion and returns the
conjugate. -/
def Qu.inverse (a : Qu) : Qu := a.conj

/-- Squared norm `x² + y² + z² + w²`; the tracker state only ever holds
quaternions of squared norm 1 (the identity, or sensor payloads normalized
on arrival). -/
def Qu.normSq (a : Qu) : ℚ := a.x * a.x + a.y * a.y + a.z * a.z + a.w * a.w

/-! ## Orientation tracker state (`src/sensors.rs`) -/

/-- Struct `SharedState` of `sensors.rs`: raw orientation written by the sensor
thread, tare reference, and the run flag. -/
structure SharedState where
  orientation : Qu
  reference : Qu
  running : Bool
deriving DecidableEq

namespace SensorInput

/-- Constructor `SensorInput::new`: the fresh shared state.  The raw orientation starts
at `Quat::IDENTITY`; the reference is loaded from the process-wide
`SAVED_REFERENCE` slot (identity on first init, otherwise whatever the last
`recenter` persisted). -/
def new (savedReference : Qu) : SharedState :=
  { orientation := Qu.identity, reference := savedReference, running := true }

/-- Method `SensorInput::get_orientation`: returns `reference.inverse() * orientation`. -/
def get_orientation (s : SharedState) : Qu :=
  Qu.mul s.reference.inverse s.orientation

/-- Method `SensorInput::recenter`: sets `reference = orientation` (and persists the
new reference to the process-wide slot, modelled by `recenter_saved`). -/
def recenter (s : SharedState) : SharedState :=
  { s with reference := s.orientation }

/-- The value `recenter` writes into the `SAVED_REFERENCE` slot. -/
def recenter_saved (s : SharedState) : Qu := s.orientation

/-- The `sensor_loop` axis remap for the rotation-vector path:
`Quat::from_xyzw(-y, x, z, w)`.  The source normalizes the result; the remap
preserves the squared norm (proved below), so on the unit quaternions the
sensor delivers, normalization is the identity and is omitted here. -/
def axisRemap (q : Qu) : Qu := ⟨-q.y, q.x, q.z, q.w⟩

end SensorInput

/-- C1: for every tracker state, `get_orientation` returns
`inverse(reference) * raw`; and immediately after `recenter` (which sets
`reference = raw`) it returns the identity rotation, for any unit raw
quaternion held in the state, regardless of its prior value. -/
theorem get_orientation_inverse_reference_mul_raw (s : SharedState)
    (h : Qu.normSq s.orientation = 1) :
    SensorInput.get_orientation s = Qu.mul s.reference.inverse s.orientation ∧
    SensorInput.get_orientation (SensorInput.recenter s) = Qu.identity := by
  refine ⟨rfl, ?_⟩
  simp only [SensorInput.get_orientation, SensorInput.recenter, Qu.mul,
    Qu.inverse, Qu.conj, Qu.identity]
  simp only [Qu.normSq] at h
  refine Qu.mk.injEq .. ▸ ⟨by ring, by ring, by ring, by linear_combination h⟩

/-- Witness for C1 at the concrete unit state raw = (3/5, 4/5, 0, 0),
reference = (0, 0, 1, 0). -/
theorem get_orientation_inverse_reference_mul_raw_witness :
    Qu.normSq (⟨3/5, 4/5, 0, 0⟩ : Qu) = 1 ∧
    (SensorInput.get_orientation
        (SensorInput.recenter ⟨⟨3/5, 4/5, 0, 0⟩, ⟨0, 0, 1, 0⟩, true⟩) = Qu.identity) :=
  ⟨by norm_num [Qu.normSq],
   (get_orientation_inverse_reference_mul_raw ⟨⟨3/5, 4/5, 0, 0⟩, ⟨0, 0, 1, 0⟩, true⟩
      (by norm_num [Qu.normSq])).2⟩

/-- C9: the axis remap maps `(x, y, z, w)` to `(-y, x, z, w)`; applying it
twice yields `(-x, -y, z, w)`, never the identity map on quaternions with a
nonzero x or y component (a 90-degree-class transform, not an involution);
it also preserves the squared norm, so the defensive `normalize` in the source
is the identity on unit inputs. -/
theorem axisRemap_twice :
    (∀ q : Qu, SensorInput.axisRemap (SensorInput.axisRemap q) = ⟨-q.x, -q.y, q.z, q.w⟩) ∧
    (∀ q : Qu, Qu.normSq (SensorInput.axisRemap q) = Qu.normSq q) ∧
    SensorInput.axisRemap (SensorInput.axisRemap ⟨1, 0, 0, 0⟩) ≠ (⟨1, 0, 0, 0⟩ : Qu) := by
  refine ⟨fun q => rfl, fun q => by simp [SensorInput.axisRemap, Qu.normSq]; ring, ?_⟩
  intro hcontra
  have hx : (-1 : ℚ) = 1 := congrArg Qu.x hcontra
  norm_num at hx

/-- C8 counterexample: a tracker restarted with the persisted reference
(1, 0, 0, 0) (a unit quaternion, as every persisted reference is) returns
`(-1, 0, 0, 0)` from `get_orientation` before the first sensor sample —
a 180-degree rotation, not the identity. -/
theorem new_get_orientation_counterexample :
    Qu.normSq (⟨1, 0, 0, 0⟩ : Qu) = 1 ∧
    SensorInput.get_orientation (SensorInput.new ⟨1, 0, 0, 0⟩) ≠ Qu.identity := by
  constructor
  · norm_num [Qu.normSq]
  · intro hcontra
    have hw : (SensorInput.get_orientation (SensorInput.new ⟨1, 0, 0, 0⟩)).w
        = Qu.identity.w := congrArg Qu.w hcontra
    simp only [SensorInput.get_orientation, SensorInput.new, Qu.mul,
      Qu.inverse, Qu.conj, Qu.identity] at hw
    norm_num at hw

/-- C8 (amended): before the first sensor sample, `get_orientation` is
non-blocking and returns the conjugate (glam inverse) of the persisted
reference loaded by `SensorInput::new`; this is the identity exactly when
the persisted reference is the identity — in particular for a tracker
constructed in a fresh process with no previously persisted recenter. -/
theorem new_get_orientation (g : Qu) :
    SensorInput.get_orientation (SensorInput.new g) = g.conj ∧
    SensorInput.get_orientation (SensorInput.new Qu.identity) = Qu.identity := by
  constructor
  · simp only [SensorInput.get_orientation, SensorInput.new, Qu.mul,
      Qu.inverse, Qu.conj, Qu.identity]
    refine Qu.mk.injEq .. ▸ ⟨by ring, by ring, by ring, by ring⟩
  · simp only [SensorInput.get_orientation, SensorInput.new, Qu.mul,
      Qu.inverse, Qu.conj, Qu.identity]
    refine Qu.mk.injEq .. ▸ ⟨by ring, by ring, by ring, by ring⟩

/-! ## Decoder pipeline (`src/video_ndk.rs`)

The shared `FrameBuffer` and `PlaybackState` structs, the control-surface
methods of `NdkVideoDecoder`, and the body of the decode loop of
`run_mediacodec_decode_fd` (lines 625-757).  Native codec/extractor calls
are modelled as emitted effects; per-iteration results of the native
dequeue calls are inputs (`DecodeEnv`).  Times are milliseconds on `ℤ`,
presentation timestamps microseconds on `ℤ`, plane bytes `List ℕ`. -/

/-- Struct `FrameBuffer`: decoded planes shared with the renderer. -/
structure FrameBuffer where
  y_data : List ℕ
  uv_data : List ℕ
  width : ℕ
  height : ℕ
  timestamp_us : ℤ
  has_new_frame : Bool
deriving DecidableEq

/-- Struct `PlaybackState` shared between decode thread and control surface.
(`pause_time_ms` / `pause_offset_ms` are declared in the source but never
read by the decode loop; they are carried verbatim.) -/
structure PlaybackState where
  is_playing : Bool
  position_us : ℤ
  duration_us : ℤ
  seek_request : Option ℤ
  pause_time_ms : ℕ
  pause_offset_ms : ℕ
deriving DecidableEq

namespace NdkVideoDecoder

/-- Method `NdkVideoDecoder::seek`: records the pending request and optimistically
updates the visible position in the same locked section. -/
def seek (position_us : ℤ) (s : PlaybackState) : PlaybackState :=
  { s with seek_request := some position_us, position_us := position_us }

/-- Method `NdkVideoDecoder::get_position`. -/
def get_position (s : PlaybackState) : ℤ := s.position_us

/-- Method `NdkVideoDecoder::pause`. -/
def pause (s : PlaybackState) : PlaybackState := { s with is_playing := false }

/-- Method `NdkVideoDecoder::resume`. -/
def resume (s : PlaybackState) : PlaybackState := { s with is_playing := true }

/-- Method `NdkVideoDecoder::get_frame`: non-blocking; if the buffer is dirty and
the Y plane nonempty, return clones of the planes and clear the dirty flag,
else return nothing and leave the buffer untouched. -/
def get_frame (fb : FrameBuffer) :
    Option (List ℕ × List ℕ × ℕ × ℕ) × FrameBuffer :=
  if fb.has_new_frame && !fb.y_data.isEmpty then
    (some (fb.y_data, fb.uv_data, fb.width, fb.height),
     { fb with has_new_frame := false })
  else
    (none, fb)

end NdkVideoDecoder

/-- Semantics of `Vec::resize(n, v)`: truncate to `n` or pad with `v` up to `n`. -/
def listResize (l : List ℕ) (n : ℕ) (v : ℕ) : List ℕ :=
  l.take n ++ List.replicate (n - l.length) v

/-- The extractor seek modes used by the decode loop. -/
inductive SeekMode where
  | previousSync
  | closestSync
deriving DecidableEq

/-- Externally visible native calls the loop body issues per iteration. -/
inductive Effect where
  | extractorSeekTo (pos : ℤ) (mode : SeekMode)
  | codecFlush
  | queueInputBuffer (size pts : ℤ)
  | extractorAdvance
  | releaseOutputBuffer
  | sleepMs (ms : ℤ)
deriving DecidableEq

/-- The loop-body handling of one dequeued output buffer
(`run_mediacodec_decode_fd` lines 689-711): resize the shared planes to
`y_size = width*height` and `uv_size = y_size/2`, then copy the two planes
from the source slice and mark the buffer dirty only if the slice holds at
least `y_size + uv_size` bytes; a shorter slice skips the copy entirely. -/
def updateOutputFrame (w h pts : ℤ) (src : List ℕ) (fb : FrameBuffer) :
    FrameBuffer :=
  if src.length = 0 then fb
  else
    let y_size := (w * h).toNat
    let uv_size := y_size / 2
    let fb1 := { fb with
      y_data := if fb.y_data.length ≠ y_size then listResize fb.y_data y_size 0
                else fb.y_data,
      uv_data := if fb.uv_data.length ≠ uv_size then listResize fb.uv_data uv_size 0
                 else fb.uv_data }
    if y_size + uv_size ≤ src.length then
      { fb1 with
        y_data := src.take y_size,
        uv_data := (src.drop y_size).take uv_size,
        width := w.toNat,
        height := h.toNat,
        timestamp_us := pts,
        has_new_frame := true }
    else fb1

/-- Measure-and-lock pacing locals of `run_mediacodec_decode_fd`. -/
structure PacingState where
  frames_for_estimation : ℕ
  previous_pts : ℤ
  accumulated_delta : ℤ
  samples_count : ℤ
  target_interval_ms : ℤ
  next_frame_target : ℤ
deriving DecidableEq

/-- Initial pacing locals (lines 617-623): no samples yet, `previous_pts = -1`,
33ms (30fps) starting assumption, deadline at the current instant. -/
def initPacing (now : ℤ) : PacingState :=
  { frames_for_estimation := 0
    previous_pts := -1
    accumulated_delta := 0
    samples_count := 0
    target_interval_ms := 33
    next_frame_target := now }

/-- Pacing step after releasing an output buffer (lines 715-751).  During
the first 15 frames: accumulate `(pts - previous_pts) / 1000` (truncating
`i64` division, positive deltas only), sleep 33ms, and on the 15th frame
lock `target_interval_ms` to the rounded average and reset the deadline to
the current instant.  Afterwards: advance the deadline by the locked
interval, sleep until it if it is in the future, and resynchronize it to
now only when it has fallen more than 100ms behind.  Returns the new
pacing state and the milliseconds slept. -/
def paceStep (p : PacingState) (pts now : ℤ) : PacingState × ℤ :=
  if p.frames_for_estimation < 15 then
    let acc_cnt :=
      if 0 ≤ p.previous_pts then
        let delta := Int.tdiv (pts - p.previous_pts) 1000
        if 0 < delta then (p.accumulated_delta + delta, p.samples_count + 1)
        else (p.accumulated_delta, p.samples_count)
      else (p.accumulated_delta, p.samples_count)
    let fe := p.frames_for_estimation + 1
    if fe = 15 ∧ 0 < acc_cnt.2 then
      ({ frames_for_estimation := fe
         previous_pts := pts
         accumulated_delta := acc_cnt.1
         samples_count := acc_cnt.2
         target_interval_ms := round ((acc_cnt.1 : ℚ) / (acc_cnt.2 : ℚ))
         next_frame_target := now }, 33)
    else
      ({ p with frames_for_estimation := fe
                previous_pts := pts
                accumulated_delta := acc_cnt.1
                samples_count := acc_cnt.2 }, 33)
  else
    let nft := p.next_frame_target + p.target_interval_ms
    if now < nft then ({ p with next_frame_target := nft }, nft - now)
    else if 100 < now - nft then ({ p with next_frame_target := now }, 0)
    else ({ p with next_frame_target := nft }, 0)

/-- Per-iteration inputs from the native layer: whether an input buffer was
dequeued, the current extractor sample (negative size signals end of stream),
whether an output buffer was dequeued with its timestamp and bytes, and the
current instant in milliseconds. -/
structure DecodeEnv where
  input_idx_ok : Bool
  sample_size : ℤ
  sample_pts : ℤ
  output_ok : Bool
  out_pts : ℤ
  out_buf : List ℕ
  now : ℤ

/-- Decode-thread state threaded through loop iterations.  (`start_time`
and `first_frame` are written by the source loop but never read, and
`frame_count` only feeds logging; they are omitted.) -/
structure DecState where
  playback : PlaybackState
  frame : FrameBuffer
  pacing : PacingState
  total_paused_ms : ℤ
  last_pause_check : ℤ

/-- One iteration of the decode loop of `run_mediacodec_decode_fd`
(lines 625-757) for a session with video dimensions `w × h`:
(a) if paused, sleep 10ms accumulating paused time and change nothing else;
(b) take a pending seek request, issuing an extractor seek (closest-sync)
and a codec flush; (c) feed one sample if an input buffer is available,
looping the extractor back to 0 (previous-sync) on end of stream; (d) drain
one output buffer if available: record its timestamp as the position,
update the shared frame buffer, release the buffer and run the pacing step. -/
def decodeIter (w h : ℤ) (st : DecState) (env : DecodeEnv) :
    DecState × List Effect :=
  if st.playback.is_playing then
    let st1 := { st with last_pause_check := env.now }
    let seekStep :=
      match st1.playback.seek_request with
      | some sp =>
          ({ st1 with
              playback := { st1.playback with seek_request := none },
              total_paused_ms := 0 },
           [Effect.extractorSeekTo sp SeekMode.closestSync, Effect.codecFlush])
      | none => (st1, ([] : List Effect))
    let st2 := seekStep.1
    let inputEffs : List Effect :=
      if env.input_idx_ok then
        if 0 ≤ env.sample_size then
          [Effect.queueInputBuffer env.sample_size env.sample_pts,
           Effect.extractorAdvance]
        else
          [Effect.extractorSeekTo 0 SeekMode.previousSync]
      else []
    if env.output_ok then
      let st3 := { st2 with
        playback := { st2.playback with position_us := env.out_pts },
        frame := updateOutputFrame w h env.out_pts env.out_buf st2.frame }
      let paced := paceStep st3.pacing env.out_pts env.now
      ({ st3 with pacing := paced.1 },
       seekStep.2 ++ inputEffs ++ [Effect.releaseOutputBuffer, Effect.sleepMs paced.2])
    else
      (st2, seekStep.2 ++ inputEffs)
  else
    ({ st with
        total_paused_ms := st.total_paused_ms + (env.now - st.last_pause_check),
        last_pause_check := env.now }, [Effect.sleepMs 10])

/-- The extractor seeks an iteration performs on behalf of a consumed
pending seek request (the decode loop uses closest-sync only there; the
end-of-stream rewind uses previous-sync). -/
def consumedSeeks (effs : List Effect) : List ℤ :=
  effs.filterMap (fun e =>
    match e with
    | Effect.extractorSeekTo p SeekMode.closestSync => some p
    | _ => none)

/-- Synthetic presentation timestamps with constant 33333µs spacing. -/
def syntheticPts (i : ℕ) : ℤ := 33333 * i

/-- Pacing state after feeding the first 15 frames of the synthetic
constant-spacing sequence through `paceStep`. -/
def warmupState : PacingState :=
  (List.range 15).foldl (fun p i => (paceStep p (syntheticPts i) 0).1) (initPacing 0)

/-- C2: `seek(T)` immediately makes `get_position` return `T`; a second
`seek(T2)` before the decode loop runs overwrites the pending request
(last-write-wins); a playing loop iteration with a pending request consumes
it exactly once (clears it and issues exactly one closest-sync extractor
seek, to `T`); an iteration whose state has no pending request issues no
such seek; and a paused iteration never drops a pending request. -/
theorem seek_exactly_once (w h T T2 : ℤ) (pb : PlaybackState) (st : DecState)
    (env : DecodeEnv)
    (hplay : st.playback.is_playing = true)
    (hpend : st.playback.seek_request = some T) :
    NdkVideoDecoder.get_position (NdkVideoDecoder.seek T pb) = T ∧
    (NdkVideoDecoder.seek T2 (NdkVideoDecoder.seek T pb)).seek_request = some T2 ∧
    (decodeIter w h st env).1.playback.seek_request = none ∧
    consumedSeeks (decodeIter w h st env).2 = [T] ∧
    (∀ st2 env2, st2.playback.seek_request = none →
      consumedSeeks (decodeIter w h st2 env2).2 = []) ∧
    (∀ st3 env3, st3.playback.is_playing = false →
      (decodeIter w h st3 env3).1.playback.seek_request
        = st3.playback.seek_request) := by
  refine ⟨rfl, rfl, ?_, ?_, ?_, ?_⟩
  · simp only [decodeIter, hplay, hpend, eq_self_iff_true, if_true]
    split_ifs <;> rfl
  · simp only [decodeIter, hplay, hpend, eq_self_iff_true, if_true, consumedSeeks]
    split_ifs <;> rfl
  · intro st2 env2 h2
    by_cases hp2 : st2.playback.is_playing
    · simp only [decodeIter, hp2, h2, eq_self_iff_true, if_true, consumedSeeks]
      split_ifs <;> rfl
    · simp only [decodeIter, if_neg hp2, consumedSeeks]
      rfl
  · intro st3 env3 h3
    simp [decodeIter, h3]

/-- Witness for C2 at a concrete playing state with pending seek 7000000. -/
theorem seek_exactly_once_witness :
    (consumedSeeks (decodeIter 4 2
      ⟨⟨true, 0, 0, some 7000000, 0, 0⟩, ⟨[], [], 0, 0, 0, false⟩,
        initPacing 0, 0, 0⟩
      ⟨false, 0, 0, false, 0, [], 0⟩).2 = [7000000]) ∧
    (decodeIter 4 2
      ⟨⟨true, 0, 0, some 7000000, 0, 0⟩, ⟨[], [], 0, 0, 0, false⟩,
        initPacing 0, 0, 0⟩
      ⟨false, 0, 0, false, 0, [], 0⟩).1.playback.seek_request = none :=
  ⟨(seek_exactly_once 4 2 7000000 0 ⟨true, 0, 0, none, 0, 0⟩
      ⟨⟨true, 0, 0, some 7000000, 0, 0⟩, ⟨[], [], 0, 0, 0, false⟩,
        initPacing 0, 0, 0⟩
      ⟨false, 0, 0, false, 0, [], 0⟩ rfl rfl).2.2.2.1,
   (seek_exactly_once 4 2 7000000 0 ⟨true, 0, 0, none, 0, 0⟩
      ⟨⟨true, 0, 0, some 7000000, 0, 0⟩, ⟨[], [], 0, 0, 0, false⟩,
        initPacing 0, 0, 0⟩
      ⟨false, 0, 0, false, 0, [], 0⟩ rfl rfl).2.2.1⟩

/-- C3 counterexample: a frame buffer that is dirty but has an empty Y plane
(possible for a degenerate zero-area video format) makes `get_frame` return
nothing without clearing the flag, so "whenever `has_new_frame` is set,
`get_frame` returns the planes and clears the flag" fails as stated. -/
theorem get_frame_dirty_empty_counterexample :
    (FrameBuffer.mk [] [] 0 0 0 true).has_new_frame = true ∧
    (NdkVideoDecoder.get_frame (FrameBuffer.mk [] [] 0 0 0 true)).1 = none ∧
    (NdkVideoDecoder.get_frame (FrameBuffer.mk [] [] 0 0 0 true)).2.has_new_frame
      = true :=
  ⟨rfl, rfl, rfl⟩

/-- C3 (amended): whenever the shared frame buffer is dirty and its Y plane
is nonempty, `get_frame` returns exactly the buffered planes (never torn)
and clears the dirty flag; a second call with no intervening decode returns
nothing and changes nothing.  (When the buffer is dirty with an empty Y
plane, `get_frame` returns nothing and leaves the flag set.) -/
theorem get_frame_at_most_once (fb : FrameBuffer)
    (hd : fb.has_new_frame = true) (hne : fb.y_data ≠ []) :
    (NdkVideoDecoder.get_frame fb).1
      = some (fb.y_data, fb.uv_data, fb.width, fb.height) ∧
    (NdkVideoDecoder.get_frame fb).2 = { fb with has_new_frame := false } ∧
    (NdkVideoDecoder.get_frame (NdkVideoDecoder.get_frame fb).2).1 = none ∧
    (NdkVideoDecoder.get_frame (NdkVideoDecoder.get_frame fb).2).2
      = (NdkVideoDecoder.get_frame fb).2 := by
  have hne' : fb.y_data.isEmpty = false := by
    simpa [List.isEmpty_iff] using hne
  refine ⟨?_, ?_, ?_, ?_⟩ <;>
    simp [NdkVideoDecoder.get_frame, hd, hne']

/-- Witness for C3 (amended) at a concrete one-byte dirty buffer. -/
theorem get_frame_at_most_once_witness :
    (FrameBuffer.mk [7] [3] 1 1 0 true).has_new_frame = true ∧
    (NdkVideoDecoder.get_frame (FrameBuffer.mk [7] [3] 1 1 0 true)).1
      = some ([7], [3], 1, 1) ∧
    (NdkVideoDecoder.get_frame
        (NdkVideoDecoder.get_frame (FrameBuffer.mk [7] [3] 1 1 0 true)).2).1
      = none :=
  ⟨rfl,
   (get_frame_at_most_once (FrameBuffer.mk [7] [3] 1 1 0 true) rfl
      (by simp)).1,
   (get_frame_at_most_once (FrameBuffer.mk [7] [3] 1 1 0 true) rfl
      (by simp)).2.2.1⟩

/-- Evaluation of the warm-up fold: after 14 frames no lock has happened;
the 15th frame locks the target to `round (462 / 14) = 33`. -/
theorem warmupState_eq : warmupState = ⟨15, 466662, 462, 14, 33, 0⟩ := by
  have h : warmupState
      = ⟨15, 466662, 462, 14, round (((462 : ℤ) : ℚ) / ((14 : ℤ) : ℚ)), 0⟩ := by
    rfl
  rw [h]
  norm_num [PacingState.mk.injEq]

/-- C5: during the 15-frame warm-up every pacing step sleeps the default
33ms; on the synthetic 33333µs-spaced timestamp sequence the locked target
interval after warm-up equals 33ms exactly (hence within 1ms); and after
warm-up the locked interval never changes while the deadline accumulator
advances by the fixed interval, resynchronizing to now only when it has
fallen more than 100ms behind. -/
theorem pacing_measure_and_lock (p : PacingState) (pts now : ℤ) :
    (p.frames_for_estimation < 15 → (paceStep p pts now).2 = 33) ∧
    warmupState.frames_for_estimation = 15 ∧
    warmupState.target_interval_ms = 33 ∧
    (warmupState.target_interval_ms - 33).natAbs ≤ 1 ∧
    (15 ≤ p.frames_for_estimation →
      (paceStep p pts now).1.target_interval_ms = p.target_interval_ms ∧
      (paceStep p pts now).1.next_frame_target =
        if 100 < now - (p.next_frame_target + p.target_interval_ms) then now
        else p.next_frame_target + p.target_interval_ms) := by
  refine ⟨?_, by rw [warmupState_eq], by rw [warmupState_eq], by rw [warmupState_eq]; decide, ?_⟩
  · intro hlt
    simp only [paceStep, if_pos hlt]
    split_ifs <;> rfl
  · intro hge
    have hn : ¬ p.frames_for_estimation < 15 := Nat.not_lt.mpr hge
    simp only [paceStep, if_neg hn]
    constructor
    · split_ifs <;> rfl
    · split_ifs with h1 h2 <;> simp_all
      all_goals omega

/-- Witness for C5: the initial state sleeps 33ms, and a locked state at
deadline 0, interval 33, stepped at now = 200 (more than 100ms behind)
resynchronizes to 200. -/
theorem pacing_measure_and_lock_witness :
    ((initPacing 0).frames_for_estimation < 15 ∧
      (paceStep (initPacing 0) 0 0).2 = 33) ∧
    (15 ≤ (⟨15, 466662, 462, 14, 33, 0⟩ : PacingState).frames_for_estimation ∧
      (paceStep ⟨15, 466662, 462, 14, 33, 0⟩ 500000 200).1.target_interval_ms
        = (⟨15, 466662, 462, 14, 33, 0⟩ : PacingState).target_interval_ms ∧
      (paceStep ⟨15, 466662, 462, 14, 33, 0⟩ 500000 200).1.next_frame_target =
        if 100 < 200 - ((0:ℤ) + 33) then 200 else (0:ℤ) + 33) :=
  ⟨⟨by decide, (pacing_measure_and_lock (initPacing 0) 0 0).1 (by decide)⟩,
   ⟨by decide,
    ((pacing_measure_and_lock ⟨15, 466662, 462, 14, 33, 0⟩ 500000 200).2.2.2.2
        (by decide)).1,
    ((pacing_measure_and_lock ⟨15, 466662, 462, 14, 33, 0⟩ 500000 200).2.2.2.2
        (by decide)).2⟩⟩

/-- C6: while playback is paused, a decode-loop iteration leaves the whole
playback state (in particular `position_us`) and the shared frame buffer
(in particular the dirty flag) unchanged; once playing again, an iteration
that drains an output buffer advances the position to the presentation
timestamp of that buffer. -/
theorem paused_freezes_position (w h : ℤ) (st : DecState) (env : DecodeEnv)
    (hp : st.playback.is_playing = false) :
    (decodeIter w h st env).1.playback = st.playback ∧
    (decodeIter w h st env).1.frame = st.frame ∧
    (∀ st2 env2, st2.playback.is_playing = true → env2.output_ok = true →
      (decodeIter w h st2 env2).1.playback.position_us = env2.out_pts) := by
  refine ⟨by simp [decodeIter, hp], by simp [decodeIter, hp], ?_⟩
  intro st2 env2 h2 hout
  simp only [decodeIter, h2, hout, eq_self_iff_true, if_true]

/-- Witness for C6 at a concrete paused state. -/
theorem paused_freezes_position_witness :
    (⟨⟨false, 42, 0, none, 0, 0⟩, ⟨[5], [6], 1, 1, 3, true⟩,
        initPacing 0, 0, 0⟩ : DecState).playback.is_playing = false ∧
    (decodeIter 1 1
      ⟨⟨false, 42, 0, none, 0, 0⟩, ⟨[5], [6], 1, 1, 3, true⟩,
        initPacing 0, 0, 0⟩
      ⟨true, 1, 0, true, 99, [1, 2], 5⟩).1.playback
      = (⟨false, 42, 0, none, 0, 0⟩ : PlaybackState) :=
  ⟨rfl,
   (paused_freezes_position 1 1
      ⟨⟨false, 42, 0, none, 0, 0⟩, ⟨[5], [6], 1, 1, 3, true⟩,
        initPacing 0, 0, 0⟩
      ⟨true, 1, 0, true, 99, [1, 2], 5⟩ rfl).1⟩

/-- C7: when a dequeued output buffer holds fewer bytes than the expected
`y_size + uv_size` for the current dimensions, the loop skips the plane
copy — the shared planes receive no bytes from the source slice (no
out-of-bounds read), only a resize of their previous contents — and the
dirty flag and timestamp are left unchanged. -/
theorem short_output_buffer_skipped (w h pts : ℤ) (src : List ℕ)
    (fb : FrameBuffer)
    (hshort : src.length < (w * h).toNat + (w * h).toNat / 2) :
    (updateOutputFrame w h pts src fb).has_new_frame = fb.has_new_frame ∧
    (updateOutputFrame w h pts src fb).timestamp_us = fb.timestamp_us ∧
    (updateOutputFrame w h pts src fb).width = fb.width ∧
    (updateOutputFrame w h pts src fb).height = fb.height ∧
    (src ≠ [] →
      (updateOutputFrame w h pts src fb).y_data
        = (if fb.y_data.length ≠ (w * h).toNat
           then listResize fb.y_data ((w * h).toNat) 0 else fb.y_data) ∧
      (updateOutputFrame w h pts src fb).uv_data
        = (if fb.uv_data.length ≠ (w * h).toNat / 2
           then listResize fb.uv_data ((w * h).toNat / 2) 0 else fb.uv_data)) := by
  have hcopy : ¬ ((w * h).toNat + (w * h).toNat / 2 ≤ src.length) :=
    not_le.mpr hshort
  by_cases hz : src.length = 0
  · have hsrc : src = [] := List.length_eq_zero.mp hz
    have heq : updateOutputFrame w h pts src fb = fb := by
      simp [updateOutputFrame, hz]
    rw [heq]
    exact ⟨rfl, rfl, rfl, rfl, fun hne => absurd hsrc hne⟩
  · have heq : updateOutputFrame w h pts src fb
        = { fb with
            y_data := if fb.y_data.length ≠ (w * h).toNat
              then listResize fb.y_data ((w * h).toNat) 0 else fb.y_data,
            uv_data := if fb.uv_data.length ≠ (w * h).toNat / 2
              then listResize fb.uv_data ((w * h).toNat / 2) 0 else fb.uv_data } := by
      simp only [updateOutputFrame, if_neg hz, if_neg hcopy]
    rw [heq]
    exact ⟨rfl, rfl, rfl, rfl, fun hne => ⟨rfl, rfl⟩⟩

/-- Witness for C7: a 2×2 frame needs 4 + 2 = 6 bytes; a 3-byte output
buffer is skipped and the buffer stays clean. -/
theorem short_output_buffer_skipped_witness :
    ([1, 2, 3] : List ℕ).length < ((2:ℤ) * 2).toNat + ((2:ℤ) * 2).toNat / 2 ∧
    (updateOutputFrame 2 2 77 [1, 2, 3]
        (FrameBuffer.mk [] [] 0 0 0 false)).has_new_frame = false :=
  ⟨by decide,
   (short_output_buffer_skipped 2 2 77 [1, 2, 3]
      (FrameBuffer.mk [] [] 0 0 0 false) (by decide)).1⟩

/-! ## Renderer distortion scale factor (`src/renderer.rs`, `Renderer::render`) -/

namespace Renderer

/-- The derived distortion scale in `Renderer::render`:
`k1 = 0.25`, `k2 = 0.15`, `r = lens_radius.min(1.0)`,
`scale = 1 / (1 + k1*r*r + k2*(r*r)*(r*r))`. -/
def scale_factor (lens_radius : ℚ) : ℚ :=
  let k1 : ℚ := 1/4
  let k2 : ℚ := 3/20
  let r := min lens_radius 1
  let r2 := r * r
  1 / (1 + k1 * r2 + k2 * r2 * r2)

end Renderer

/-- Unfolding of `scale_factor` into the polynomial form of the spec. -/
theorem scale_factor_eq (lr : ℚ) :
    Renderer.scale_factor lr
      = 1 / (1 + (1/4) * (min lr 1)^2 + (3/20) * (min lr 1)^4) := by
  simp only [Renderer.scale_factor]
  ring_nf

/-- C4: the scale factor equals `1 / (1 + 0.25 r² + 0.15 r⁴)` with
`r = min(lens_radius, 1)`; it is monotonically non-increasing in the lens
radius, constant once the radius exceeds 1 (the clamp), and in particular
`scale_factor(0.5) > scale_factor(1) = scale_factor(1.5)`. -/
theorem scale_factor_monotone (a b : ℚ) (h0 : 0 ≤ a) (hab : a ≤ b) :
    Renderer.scale_factor a
        = 1 / (1 + (1/4) * (min a 1)^2 + (3/20) * (min a 1)^4) ∧
    Renderer.scale_factor b ≤ Renderer.scale_factor a ∧
    (1 ≤ a → Renderer.scale_factor a = Renderer.scale_factor 1) ∧
    Renderer.scale_factor 1 < Renderer.scale_factor (1/2) ∧
    Renderer.scale_factor 1 = Renderer.scale_factor (3/2) := by
  refine ⟨scale_factor_eq a, ?_, ?_, ?_, ?_⟩
  · rw [scale_factor_eq a, scale_factor_eq b]
    set ra := min a 1 with hra
    set rb := min b 1 with hrb
    have h0a : 0 ≤ ra := le_min h0 zero_le_one
    have hr : ra ≤ rb := min_le_min hab le_rfl
    have h0b : 0 ≤ rb := h0a.trans hr
    have hpos : (0:ℚ) < 1 + (1/4) * ra^2 + (3/20) * ra^4 := by positivity
    have h2 : ra^2 ≤ rb^2 := pow_le_pow_left₀ h0a hr 2
    have h4 : ra^4 ≤ rb^4 := pow_le_pow_left₀ h0a hr 4
    have hD : 1 + (1/4) * ra^2 + (3/20) * ra^4
        ≤ 1 + (1/4) * rb^2 + (3/20) * rb^4 := by nlinarith
    exact one_div_le_one_div_of_le hpos hD
  · intro h1
    rw [scale_factor_eq a, scale_factor_eq (1 : ℚ), min_eq_right h1]
    norm_num
  · rw [scale_factor_eq (1 : ℚ), scale_factor_eq ((1:ℚ)/2)]
    norm_num
  · rw [scale_factor_eq (1 : ℚ), scale_factor_eq ((3:ℚ)/2)]
    rw [min_eq_right (by norm_num : (1:ℚ) ≤ 3/2)]
    norm_num

/-- Witness for C4 at a = 1/2, b = 2 (and a = 1 for the clamp conjunct). -/
theorem scale_factor_monotone_witness :
    ((0:ℚ) ≤ 1/2 ∧ (1:ℚ)/2 ≤ 2 ∧
      Renderer.scale_factor 2 ≤ Renderer.scale_factor (1/2)) ∧
    ((1:ℚ) ≤ 1 ∧ Renderer.scale_factor 1 = Renderer.scale_factor 1) :=
  ⟨⟨by norm_num, by norm_num,
      (scale_factor_monotone (1/2) 2 (by norm_num) (by norm_num)).2.1⟩,
   ⟨le_rfl, (scale_factor_monotone 1 1 (by norm_num) le_rfl).2.2.1 le_rfl⟩⟩

/-! ## Orchestrator ±10s seek intents (`src/lib.rs`, `VRApp::window_event`)

The UI seek-backward flag and the gamepad seek-back action both issue
`decoder.seek((pos - 10_000_000).max(0))`; the two forward paths both issue
`decoder.seek(pos + 10_000_000)` with no clamp. -/

/-- Target of the backward ±10s intent (UI flag and gamepad action). -/
def seekBackwardTarget (pos : ℤ) : ℤ := max (pos - 10000000) 0

/-- Target of the forward ±10s intent (UI flag and gamepad action). -/
def seekForwardTarget (pos : ℤ) : ℤ := pos + 10000000

/-- C10: every backward ±10s intent clamps its seek target at 0 (never a
negative timestamp), and once the position is at least 10s the clamp is
inactive; the forward intent passes `position + 10_000_000` unclamped, so
from any position at or past `duration` the target strictly exceeds the
duration. -/
theorem seek_intents_clamp (pos dur : ℤ) :
    0 ≤ seekBackwardTarget pos ∧
    (10000000 ≤ pos → seekBackwardTarget pos = pos - 10000000) ∧
    seekForwardTarget pos = pos + 10000000 ∧
    (dur ≤ pos → dur < seekForwardTarget pos) := by
  refine ⟨le_max_right _ _, ?_, rfl, ?_⟩
  · intro h
    exact max_eq_left (by omega)
  · intro h
    simp only [seekForwardTarget]
    omega

/-- Witness for C10 at pos = 20000000, dur = 20000000. -/
theorem seek_intents_clamp_witness :
    ((10000000:ℤ) ≤ 20000000 ∧
      seekBackwardTarget 20000000 = 20000000 - 10000000) ∧
    ((20000000:ℤ) ≤ 20000000 ∧ (20000000:ℤ) < seekForwardTarget 20000000) :=
  ⟨⟨by norm_num, (seek_intents_clamp 20000000 20000000).2.1 (by norm_num)⟩,
   ⟨le_rfl, (seek_intents_clamp 20000000 20000000).2.2.2 le_rfl⟩⟩

end VRApp
